import Mathlib

/-!
Verification development for the SCD4x Sensirion driver
(`src/scd4x_sensirion.py`).  The driver is embedded shallowly: each
method of `SCD4xSensirion` becomes a pure function from the session
state and the bytes the bus adapter would return for the method's read,
to an `Outcome` recording the final session state, every buffer passed
to the adapter's write primitive, and the returned value or the raised
error.  Byte strings are `List Nat` with each entry < 256; Python
floats are modelled as exact rationals.
-/

namespace SCD4x

/-- One shift-register round of the CRC-8 computation: shift left one
bit, xoring in the polynomial 0x31 when the top bit was set. -/
def crc8Bit (c : Nat) : Nat :=
  if 128 ≤ c then ((c * 2) ^^^ 0x31) % 256 else (c * 2) % 256

/-- Modelled from the spec: `sensor_pack.crc_mod.crc8` (not part of this
repository) is the standard CRC-8/Sensirion checksum — polynomial 0x31,
initial value 0xFF, MSB first, no reflection, no final xor — folded
over the byte sequence, eight shift rounds per byte. -/
def crc8 (data : List Nat) : Nat :=
  data.foldl (fun c b => crc8Bit^[8] ((c ^^^ b) % 256)) 0xFF

/-- `SCD4xSensirion._calc_crc`: `crc8(sequence, 0x31, 0xFF)`. -/
def calc_crc (sequence : List Nat) : Nat := crc8 sequence

/-- Python `n.to_bytes(2, "big")` for an in-range nonnegative `n`. -/
def to_bytes2 (n : Nat) : List Nat := [n / 256 % 256, n % 256]

/-- The session state set up by `SCD4xSensirion.__init__` and never
reassigned afterwards: bus address, the `check_crc` enforcement flag and
the two mode flags. -/
structure Session where
  address : Nat
  check_crc : Bool
  low_power_mode : Bool
  single_shot_mode : Bool
  deriving DecidableEq, Repr

/-- Errors raised while executing an operation. `invalidLength` and
`crcMismatch` are the two `ValueError`s produced through
`base_sensor.check_value`; `overflow` is the `OverflowError` Python's
`int.to_bytes` raises on a value outside the unsigned 2-byte range. -/
inductive SensorError where
  | invalidLength (received : Nat) (expected : Nat)
  | crcMismatch (received : List Nat) (calculated : List Nat)
  | overflow
  deriving DecidableEq, Repr

/-- Result of running one driver method: the session state afterwards,
the byte buffers handed to the adapter's write primitive (in order),
and either the method's return value or the error it raised. -/
structure Outcome (α : Type) where
  session : Session
  writes : List (List Nat)
  result : Except SensorError α
  deriving Repr

/-- Modelled from the spec: `sensor_pack.base_sensor.check_value` (not
part of this repository) raises when the value is not among the valid
values, and otherwise does nothing. -/
def check_value (v : Nat) (valid : List Nat) (e : SensorError) :
    Except SensorError Unit :=
  if v ∈ valid then .ok () else .error e

/-- Modelled from the spec: `BaseSensor.unpack` with format "H" (not
part of this repository) decodes the leading 16-bit word of the buffer
big-endian, the byte order `__init__` selects. -/
def unpackH (b : List Nat) : Nat := 256 * b.getD 0 0 + b.getD 1 0

/-- Python `i.to_bytes(2, "big")` on an `int`: the two big-endian bytes
for `0 ≤ i < 2^16`, an `OverflowError` otherwise. -/
def int_to_bytes2 (i : ℤ) : Except SensorError (List Nat) :=
  if 0 ≤ i ∧ i < 65536 then .ok (to_bytes2 i.toNat) else .error .overflow

/-- The buffer `_send_command` hands to `self._write`: the command code
as 2 bytes big-endian; when a payload is present, the payload bytes
followed by ONE checksum computed over the whole payload (source lines
49–51: `raw_out += value; raw_out += _calc_crc(value)`). -/
def send_command_frame (cmd : Nat) (value : List Nat) : List Nat :=
  let raw_cmd := to_bytes2 cmd
  if value.isEmpty then raw_cmd
  else raw_cmd ++ value ++ [calc_crc value]

/-- `SCD4xSensirion._send_command`: write the frame, optionally read
`bytes_for_read` bytes (`resp` is what the adapter returns) and check
the received length through `base_sensor.check_value`. -/
def send_command (s : Session) (cmd : Nat) (value : List Nat)
    (bytes_for_read : Nat) (resp : List Nat) :
    Outcome (Option (List Nat)) :=
  let frame := send_command_frame cmd value
  if bytes_for_read = 0 then ⟨s, [frame], .ok none⟩
  else
    match check_value resp.length [bytes_for_read]
        (.invalidLength resp.length bytes_for_read) with
    | .error e => ⟨s, [frame], .error e⟩
    | .ok _ => ⟨s, [frame], .ok (some resp)⟩

/-- The frame §4.2 of the specification describes: opcode, then each
payload word as 2 bytes big-endian immediately followed by that word's
own checksum byte.  Written from the spec's words, to be compared with
`send_command_frame`. -/
def spec_frame (cmd : Nat) (words : List Nat) : List Nat :=
  to_bytes2 cmd ++
    words.foldr (fun w acc => to_bytes2 w ++ [calc_crc (to_bytes2 w)] ++ acc) []

/-- Payload words laid out as bytes, big-endian, without checksums: the
`value` argument a caller of `_send_command` would build for them. -/
def words_to_bytes (words : List Nat) : List Nat :=
  words.foldr (fun w acc => to_bytes2 w ++ acc) []

/-- `SCD4xSensirion.save_config`: `_send_command(0x3615, None, 800)`. -/
def save_config (s : Session) : Outcome Unit :=
  let r := send_command s 0x3615 [] 0 []
  ⟨r.session, r.writes, .ok ()⟩

/-- `crc_from_buf` of `get_id`: `[b[i] for i in range(2, 9, 3)]` — the
checksum bytes at offsets 2, 5, 8 of the response. -/
def crc_from_buf (b : List Nat) : List Nat :=
  [b.getD 2 0, b.getD 5 0, b.getD 8 0]

/-- `calculated_crc` of `get_id`:
`[_calc_crc((b[i], b[i+1])) for i in range(0, 9, 3)]` — the checksums
recomputed over the byte pairs at offsets (0,1), (3,4), (6,7). -/
def calculated_crc (b : List Nat) : List Nat :=
  [calc_crc [b.getD 0 0, b.getD 1 0],
   calc_crc [b.getD 3 0, b.getD 4 0],
   calc_crc [b.getD 6 0, b.getD 7 0]]

/-- The tuple `get_id` returns:
`tuple([(b[i] << 8) | b[i+1] for i in range(0, 9, 3)])`. -/
def id_words (b : List Nat) : Nat × Nat × Nat :=
  (256 * b.getD 0 0 + b.getD 1 0, 256 * b.getD 3 0 + b.getD 4 0,
   256 * b.getD 6 0 + b.getD 7 0)

/-- `SCD4xSensirion.get_id`: `_send_command(0x3682, None, 0, 9)`; when
`check_crc` is set, compare the checksum bytes at offsets 2, 5, 8 with
the checksums recomputed over the byte pairs (0,1), (3,4), (6,7), and
raise through `check_value(1, (0,), …)` when the lists differ; return
the three big-endian words. -/
def get_id (s : Session) (resp : List Nat) : Outcome (Nat × Nat × Nat) :=
  let r := send_command s 0x3682 [] 9 resp
  match r.result with
  | .error e => ⟨r.session, r.writes, .error e⟩
  | .ok _ =>
    if s.check_crc ∧ crc_from_buf resp ≠ calculated_crc resp then
      match check_value 1 [0]
          (.crcMismatch (crc_from_buf resp) (calculated_crc resp)) with
      | .error e => ⟨r.session, r.writes, .error e⟩
      | .ok _ => ⟨r.session, r.writes, .ok (id_words resp)⟩
    else ⟨r.session, r.writes, .ok (id_words resp)⟩

/-- `SCD4xSensirion.soft_reset`: the body is `return None` — no write,
no read, no state change. -/
def soft_reset (s : Session) : Outcome Unit := ⟨s, [], .ok ()⟩

/-- `SCD4xSensirion.exec_self_test`: write opcode 0x3639, read 3 bytes,
check the length; when `check_crc` is set the source computes the
checksum of the decoded word and then calls `check_value(1, (0,), …)`
with no comparison — 1 is never in (0,), so the call raises whenever
`check_crc` is set; otherwise return `0 == res`. -/
def exec_self_test (s : Session) (resp : List Nat) : Outcome Bool :=
  let writes := [to_bytes2 0x3639]
  match check_value resp.length [3] (.invalidLength resp.length 3) with
  | .error e => ⟨s, writes, .error e⟩
  | .ok _ =>
    let res := unpackH resp
    if s.check_crc then
      let crc := calc_crc (to_bytes2 res)
      match check_value 1 [0] (.crcMismatch [resp.getD 2 0] [crc]) with
      | .error e => ⟨s, writes, .error e⟩
      | .ok _ => ⟨s, writes, .ok (0 == res)⟩
    else ⟨s, writes, .ok (0 == res)⟩

/-- `SCD4xSensirion.reinit`: write opcode 0x3646, sleep, return. -/
def reinit (s : Session) : Outcome Unit := ⟨s, [to_bytes2 0x3646], .ok ()⟩

/-- Python `int(q)` on a rational: truncation toward zero — the
ceiling for negative values, the floor otherwise. -/
def pyint (q : ℚ) : ℤ := if q < 0 then ⌈q⌉ else ⌊q⌋

/-- Python `q // 100` followed by `int(…)`: the floor of `q / 100`. -/
def pyfloordiv100 (q : ℚ) : ℤ := ⌊q / 100⌋

/-- The factor `374.49142857` of `set_temperature_offset`, exact. -/
def offsetScale : ℚ := 374.49142857

/-- The factor `0.0026702880859375` of `get_temperature_offset`,
exact (it equals 175/65536). -/
def offsetDecodeScale : ℚ := 0.0026702880859375

/-- The raw word `set_temperature_offset` computes at line 149:
`int(374.49142857 * offset)`. -/
def temp_offset_raw (offset : ℚ) : ℤ := pyint (offsetScale * offset)

/-- `SCD4xSensirion.set_temperature_offset`: encode the offset, compute
the word's checksum (line 150 — `to_bytes` raises here when the raw
value is out of the unsigned 16-bit range, before anything is written)
and write opcode 0x241D, word and checksum as one buffer. -/
def set_temperature_offset (s : Session) (offset : ℚ) : Outcome Unit :=
  match int_to_bytes2 (temp_offset_raw offset) with
  | .error e => ⟨s, [], .error e⟩
  | .ok raw =>
    let crc := calc_crc raw
    ⟨s, [to_bytes2 0x241D ++ raw ++ [crc]], .ok ()⟩

/-- `SCD4xSensirion.get_temperature_offset`: write opcode 0x2318, read
3 bytes, check the length, decode the leading word and scale it by
0.0026702880859375. -/
def get_temperature_offset (s : Session) (resp : List Nat) : Outcome ℚ :=
  let writes := [to_bytes2 0x2318]
  match check_value resp.length [3] (.invalidLength resp.length 3) with
  | .error e => ⟨s, writes, .error e⟩
  | .ok _ => ⟨s, writes, .ok (offsetDecodeScale * unpackH resp)⟩

/-- `SCD4xSensirion.set_altitude`: encode `masl` as an unsigned 16-bit
big-endian word (raising on out-of-range), append its checksum and
write it after opcode 0x2427. -/
def set_altitude (s : Session) (masl : ℤ) : Outcome Unit :=
  match int_to_bytes2 masl with
  | .error e => ⟨s, [], .error e⟩
  | .ok masl_raw =>
    let crc := calc_crc masl_raw
    ⟨s, [to_bytes2 0x2427 ++ masl_raw ++ [crc]], .ok ()⟩

/-- `SCD4xSensirion.get_altitude`: write opcode 0x2322, read 3 bytes,
check the length and return the decoded leading word; the checksum byte
at offset 2 is never examined. -/
def get_altitude (s : Session) (resp : List Nat) : Outcome Nat :=
  let writes := [to_bytes2 0x2322]
  match check_value resp.length [3] (.invalidLength resp.length 3) with
  | .error e => ⟨s, writes, .error e⟩
  | .ok _ => ⟨s, writes, .ok (unpackH resp)⟩

/-- `SCD4xSensirion.set_ambient_pressure`: encode
`int(pressure // 100)` as an unsigned 16-bit big-endian word (raising
on out-of-range), append its checksum and write it after opcode
0xE000. -/
def set_ambient_pressure (s : Session) (pressure : ℚ) : Outcome Unit :=
  match int_to_bytes2 (pyfloordiv100 pressure) with
  | .error e => ⟨s, [], .error e⟩
  | .ok press_raw =>
    let crc := calc_crc press_raw
    ⟨s, [to_bytes2 0xE000 ++ press_raw ++ [crc]], .ok ()⟩

/-- `SCD4xSensirion.periodic_measurement`: choose the opcode from
`start` and the session's low-power flag and write it. -/
def periodic_measurement (s : Session) (start : Bool) : Outcome Unit :=
  let cmd := if start then (if s.low_power_mode then 0x21AC else 0x21B1)
             else 0x3F86
  ⟨s, [to_bytes2 cmd], .ok ()⟩

/-- `SCD4xSensirion.is_data_ready`: the source assigns `cmd = 0xE4B8`
but never writes it — the writes list is empty; read 3 bytes, check the
length and return the decoded word itself, unmasked. -/
def is_data_ready (s : Session) (resp : List Nat) : Outcome Nat :=
  match check_value resp.length [3] (.invalidLength resp.length 3) with
  | .error e => ⟨s, [], .error e⟩
  | .ok _ => ⟨s, [], .ok (unpackH resp)⟩

/-- A session at the default address 0x62 with checksum enforcement
enabled, used as the concrete session of the examples. -/
def s0 : Session := ⟨0x62, true, false, false⟩

instance {ε α : Type} [DecidableEq ε] [DecidableEq α] :
    DecidableEq (Except ε α) := fun x y =>
  match x, y with
  | .error e, .error f =>
    if h : e = f then isTrue (by rw [h]) else isFalse (by simpa using h)
  | .error _, .ok _ => isFalse (by simp)
  | .ok _, .error _ => isFalse (by simp)
  | .ok a, .ok b =>
    if h : a = b then isTrue (by rw [h]) else isFalse (by simpa using h)

lemma words_to_bytes_cons (w : Nat) (ws : List Nat) :
    words_to_bytes (w :: ws) = to_bytes2 w ++ words_to_bytes ws := rfl

lemma words_to_bytes_length (ws : List Nat) :
    (words_to_bytes ws).length = 2 * ws.length := by
  induction ws with
  | nil => rfl
  | cons w t ih =>
    simp only [words_to_bytes_cons, List.length_append, ih, to_bytes2,
      List.length_cons, List.length_nil, List.length_cons]
    omega

lemma words_to_bytes_not_empty (ws : List Nat) (h : ws ≠ []) :
    (words_to_bytes ws).isEmpty = false := by
  cases ws with
  | nil => exact absurd rfl h
  | cons w t => rfl

lemma check_value_ne (v n : Nat) (e : SensorError) (h : v ≠ n) :
    check_value v [n] e = .error e := by
  simp [check_value, h]

lemma send_command_session (s : Session) (cmd : Nat) (value : List Nat)
    (n : Nat) (resp : List Nat) :
    (send_command s cmd value n resp).session = s := by
  unfold send_command
  split
  · rfl
  · split <;> rfl

lemma get_id_session (s : Session) (resp : List Nat) :
    (get_id s resp).session = s := by
  unfold get_id
  cases hr : (send_command s 0x3682 [] 9 resp).result with
  | error e => simp [hr, send_command_session]
  | ok v =>
    simp only [hr]
    repeat' split
    all_goals simp [send_command_session]

lemma save_config_session (s : Session) : (save_config s).session = s := by
  simp [save_config, send_command_session]

lemma exec_self_test_session (s : Session) (resp : List Nat) :
    (exec_self_test s resp).session = s := by
  unfold exec_self_test
  repeat' split
  all_goals rfl

lemma set_temperature_offset_session (s : Session) (offset : ℚ) :
    (set_temperature_offset s offset).session = s := by
  unfold set_temperature_offset
  split <;> rfl

lemma get_temperature_offset_session (s : Session) (resp : List Nat) :
    (get_temperature_offset s resp).session = s := by
  unfold get_temperature_offset
  split <;> rfl

lemma set_altitude_session (s : Session) (masl : ℤ) :
    (set_altitude s masl).session = s := by
  unfold set_altitude
  split <;> rfl

lemma get_altitude_session (s : Session) (resp : List Nat) :
    (get_altitude s resp).session = s := by
  unfold get_altitude
  split <;> rfl

lemma set_ambient_pressure_session (s : Session) (pressure : ℚ) :
    (set_ambient_pressure s pressure).session = s := by
  unfold set_ambient_pressure
  split <;> rfl

lemma is_data_ready_session (s : Session) (resp : List Nat) :
    (is_data_ready s resp).session = s := by
  unfold is_data_ready
  split <;> rfl

lemma pyint_lt_zero (q : ℚ) (h : q ≤ -1) : pyint q < 0 := by
  have hq0 : q < 0 := lt_of_le_of_lt h (by norm_num)
  rw [pyint, if_pos hq0]
  have hle : ⌈q⌉ ≤ ⌈(-1 : ℚ)⌉ := Int.ceil_le_ceil h
  have hm1 : ⌈(-1 : ℚ)⌉ = -1 := by
    have := Int.ceil_intCast (α := ℚ) (-1)
    simpa using this
  omega

/-- C1 (counterexample): the claim fails for a two-word payload — the
frame `_send_command` builds for payload words 0x0001 and 0x0002 is not
the per-word-checksummed frame of the spec (the source appends ONE
checksum computed over the whole four payload bytes). -/
theorem send_command_frame_not_per_word :
    send_command_frame 0x3615 (words_to_bytes [1, 2]) ≠
      spec_frame 0x3615 [1, 2] := by decide

/-- C1 (amended): for a nonempty payload `_send_command` emits the
2-byte big-endian opcode, the payload bytes, and exactly ONE trailing
checksum byte computed over the whole payload — so a payload of N words
carries one checksum byte, not N; for the single-word payloads the
repository actually sends, this coincides with the spec's per-word
interleaved frame. -/
theorem send_command_frame_whole_payload_checksum (cmd : Nat)
    (ws : List Nat) (h : ws ≠ []) :
    send_command_frame cmd (words_to_bytes ws) =
      to_bytes2 cmd ++ words_to_bytes ws ++ [calc_crc (words_to_bytes ws)] ∧
    (send_command_frame cmd (words_to_bytes ws)).length =
      2 + 2 * ws.length + 1 ∧
    ∀ w : Nat, send_command_frame cmd (words_to_bytes [w]) =
      spec_frame cmd [w] := by
  refine ⟨?_, ?_, ?_⟩
  · simp [send_command_frame, words_to_bytes_not_empty ws h]
  · simp [send_command_frame, words_to_bytes_not_empty ws h, to_bytes2,
      words_to_bytes_length]
    omega
  · intro w
    rfl

theorem send_command_frame_whole_payload_checksum_witness :
    send_command_frame 0x3615 (words_to_bytes [7]) =
      to_bytes2 0x3615 ++ words_to_bytes [7] ++
        [calc_crc (words_to_bytes [7])] :=
  (send_command_frame_whole_payload_checksum 0x3615 [7] (by decide)).1

/-- C2: with checksum enforcement on and a 9-byte response, `get_id`
takes the checksum bytes from offsets 2, 5, 8 and compares them with
checksums recomputed over the byte pairs (0,1), (3,4), (6,7); when the
lists differ it raises a checksum-mismatch error carrying both lists,
and otherwise it returns the three big-endian words. -/
theorem get_id_validates_all_three_words (s : Session) (resp : List Nat)
    (h9 : resp.length = 9) (hc : s.check_crc = true) :
    (crc_from_buf resp ≠ calculated_crc resp →
      (get_id s resp).result =
        .error (.crcMismatch (crc_from_buf resp) (calculated_crc resp))) ∧
    (crc_from_buf resp = calculated_crc resp →
      (get_id s resp).result = .ok (id_words resp)) := by
  constructor <;> intro hcrc <;>
    simp [get_id, send_command, check_value, h9, hc, hcrc]

theorem get_id_validates_all_three_words_witness :
    (get_id s0 [0, 0, 0x81, 0, 0, 0x81, 0, 0, 0x81]).result =
      .ok (0, 0, 0) := by
  have h :=
    (get_id_validates_all_three_words s0 [0, 0, 0x81, 0, 0, 0x81, 0, 0, 0x81]
      rfl rfl).2 (by decide)
  simpa [id_words] using h

/-- C3 (code bug): `get_altitude` performs no checksum validation at
all — with enforcement enabled and response bytes 01 02 03, although
the checksum of the word 0x0102 is 0x17 and not 0x03, the call returns
258 instead of raising a checksum-mismatch error. -/
theorem get_altitude_skips_checksum_validation :
    s0.check_crc = true ∧ calc_crc [0x01, 0x02] = 0x17 ∧
    (0x17 : Nat) ≠ 0x03 ∧
    (get_altitude s0 [0x01, 0x02, 0x03]).result = .ok 258 := by decide

/-- C4 (code bug): with checksum enforcement on, `exec_self_test`
raises unconditionally — even on the response 00 00 81 whose checksum
byte 0x81 is exactly the checksum of the word bytes 00 00 and whose
decoded word is 0, the raised error lists identical received and
calculated checksums; with enforcement off the same response yields
`true`. -/
theorem exec_self_test_always_raises_with_enforcement :
    calc_crc [0, 0] = 0x81 ∧
    (exec_self_test s0 [0, 0, 0x81]).result =
      .error (.crcMismatch [0x81] [0x81]) ∧
    (exec_self_test ⟨0x62, false, false, false⟩ [0, 0, 0x81]).result =
      .ok true := by decide

/-- C5 (code bug): `is_data_ready` assigns the opcode 0xE4B8 but never
writes it, and returns the decoded word unmasked: for the raw word
0xF800 — whose low 11 bits are all zero, so the claim requires `false`
— the call performs zero writes and returns the truthy value 0xF800. -/
theorem is_data_ready_unmasked_and_no_write :
    (is_data_ready s0 [0xF8, 0x00, 0xAC]).writes = [] ∧
    (is_data_ready s0 [0xF8, 0x00, 0xAC]).result = .ok 0xF800 ∧
    0xF800 &&& 0x07FF = 0 ∧ (0xF800 : Nat) ≠ 0 := by decide

/-- C6: every operation with a fixed nonzero expected response length
raises the length-mismatch error when the adapter returns fewer bytes,
for every session — in particular regardless of the checksum
enforcement flag — and the error is the call's result (nothing is
retried or recovered). -/
theorem short_read_raises_invalid_length (s : Session) (resp : List Nat) :
    (∀ cmd value n, 0 < n → resp.length < n →
      (send_command s cmd value n resp).result =
        .error (.invalidLength resp.length n)) ∧
    (resp.length < 9 →
      (get_id s resp).result = .error (.invalidLength resp.length 9)) ∧
    (resp.length < 3 →
      (exec_self_test s resp).result =
        .error (.invalidLength resp.length 3)) ∧
    (resp.length < 3 →
      (get_temperature_offset s resp).result =
        .error (.invalidLength resp.length 3)) ∧
    (resp.length < 3 →
      (get_altitude s resp).result =
        .error (.invalidLength resp.length 3)) ∧
    (resp.length < 3 →
      (is_data_ready s resp).result =
        .error (.invalidLength resp.length 3)) := by
  refine ⟨?_, ?_, ?_, ?_, ?_, ?_⟩
  · intro cmd value n hn hlt
    have hne : n ≠ 0 := by omega
    have hcv := check_value_ne resp.length n
      (.invalidLength resp.length n) (Nat.ne_of_lt hlt)
    simp [send_command, hne, hcv]
  · intro hlt
    have hcv := check_value_ne resp.length 9
      (.invalidLength resp.length 9) (Nat.ne_of_lt hlt)
    simp [get_id, send_command, hcv]
  · intro hlt
    have hcv := check_value_ne resp.length 3
      (.invalidLength resp.length 3) (Nat.ne_of_lt hlt)
    simp [exec_self_test, hcv]
  · intro hlt
    have hcv := check_value_ne resp.length 3
      (.invalidLength resp.length 3) (Nat.ne_of_lt hlt)
    simp [get_temperature_offset, hcv]
  · intro hlt
    have hcv := check_value_ne resp.length 3
      (.invalidLength resp.length 3) (Nat.ne_of_lt hlt)
    simp [get_altitude, hcv]
  · intro hlt
    have hcv := check_value_ne resp.length 3
      (.invalidLength resp.length 3) (Nat.ne_of_lt hlt)
    simp [is_data_ready, hcv]

theorem short_read_raises_invalid_length_witness :
    (get_id s0 [1, 2]).result = .error (.invalidLength 2 9) :=
  (short_read_raises_invalid_length s0 [1, 2]).2.1 (by decide)

/-- C7: `soft_reset` performs zero writes (and zero reads), returns
nothing and leaves the session unchanged, whatever the session state. -/
theorem soft_reset_writes_nothing (s : Session) :
    (soft_reset s).writes = [] ∧ (soft_reset s).result = .ok () ∧
    (soft_reset s).session = s :=
  ⟨rfl, rfl, rfl⟩

/-- C8: `set_temperature_offset 4` encodes the word 1497, whose frame
it writes after opcode 0x241D; feeding that word back through
`get_temperature_offset` decodes it as 0.0026702880859375 × 1497, and
that value is within one encoding quantum (1/374.49142857) of 4 °C. -/
theorem temperature_offset_roundtrip_within_quantum :
    temp_offset_raw 4 = 1497 ∧
    (set_temperature_offset s0 4).writes =
      [to_bytes2 0x241D ++ to_bytes2 1497 ++ [calc_crc (to_bytes2 1497)]] ∧
    (get_temperature_offset s0
        (to_bytes2 1497 ++ [calc_crc (to_bytes2 1497)])).result =
      .ok (offsetDecodeScale * 1497) ∧
    |4 - offsetDecodeScale * 1497| ≤ 1 / offsetScale := by
  have hraw : temp_offset_raw 4 = 1497 := by
    rw [temp_offset_raw, pyint, if_neg (by norm_num [offsetScale]),
      Int.floor_eq_iff]
    norm_num [offsetScale]
  have hbytes : int_to_bytes2 (temp_offset_raw 4) = .ok (to_bytes2 1497) := by
    rw [hraw]
    decide
  refine ⟨hraw, ?_, ?_, ?_⟩
  · simp [set_temperature_offset, hbytes]
  · have hlen : (to_bytes2 1497 ++ [calc_crc (to_bytes2 1497)]).length = 3 :=
      rfl
    have hw : unpackH (to_bytes2 1497 ++ [calc_crc (to_bytes2 1497)]) = 1497 :=
      rfl
    simp [get_temperature_offset, check_value, hlen, hw]
  · rw [abs_le]
    constructor <;> norm_num [offsetDecodeScale, offsetScale]

/-- C9: every public catalog operation leaves the session's fields —
address, check_crc and the two mode flags — exactly as they were;
only construction sets them. -/
theorem catalog_operations_preserve_session (s : Session)
    (resp : List Nat) (masl : ℤ) (offset pressure : ℚ) (start : Bool) :
    (save_config s).session = s ∧ (get_id s resp).session = s ∧
    (soft_reset s).session = s ∧ (exec_self_test s resp).session = s ∧
    (reinit s).session = s ∧
    (set_temperature_offset s offset).session = s ∧
    (get_temperature_offset s resp).session = s ∧
    (set_altitude s masl).session = s ∧
    (get_altitude s resp).session = s ∧
    (set_ambient_pressure s pressure).session = s ∧
    (periodic_measurement s start).session = s ∧
    (is_data_ready s resp).session = s :=
  ⟨save_config_session s, get_id_session s resp, rfl,
   exec_self_test_session s resp, rfl,
   set_temperature_offset_session s offset,
   get_temperature_offset_session s resp, set_altitude_session s masl,
   get_altitude_session s resp, set_ambient_pressure_session s pressure,
   rfl, is_data_ready_session s resp⟩

/-- C10 (counterexample): the claim fails for the negative offset
-0.001 — the scaled value truncates to the raw word 0, which serializes
fine, so the call raises nothing and writes the full frame
24 1D 00 00 81 to the transport. -/
theorem set_temperature_offset_small_negative_writes :
    (set_temperature_offset s0 (-1/1000)).result = .ok () ∧
    (set_temperature_offset s0 (-1/1000)).writes =
      [[0x24, 0x1D, 0x00, 0x00, 0x81]] := by
  have hraw : temp_offset_raw (-1/1000) = 0 := by
    rw [temp_offset_raw, pyint, if_pos (by norm_num [offsetScale]),
      Int.ceil_eq_iff]
    norm_num [offsetScale]
  have hbytes : int_to_bytes2 (temp_offset_raw (-1/1000)) = .ok [0, 0] := by
    rw [hraw]
    decide
  constructor
  · simp [set_temperature_offset, hbytes]
  · simp only [set_temperature_offset, hbytes]
    decide

/-- C10 (amended): for every offset at or below one negative encoding
quantum (-1/374.49142857 °C) the encoded raw value is negative, so
serializing it raises before anything is written: the call's result is
the overflow error, the write list is empty (and by
`set_temperature_offset_session` the session is unchanged). -/
theorem set_temperature_offset_negative_raises_before_write (s : Session)
    (offset : ℚ) (h : offset ≤ -(1 / offsetScale)) :
    temp_offset_raw offset < 0 ∧
    (set_temperature_offset s offset).result = .error .overflow ∧
    (set_temperature_offset s offset).writes = [] := by
  have hscale : (0 : ℚ) < offsetScale := by norm_num [offsetScale]
  have h1 : offsetScale * offset ≤ -1 := by
    have h2 := mul_le_mul_of_nonneg_left h (le_of_lt hscale)
    rwa [mul_neg, mul_one_div_cancel hscale.ne'] at h2
  have hraw : temp_offset_raw offset < 0 := pyint_lt_zero _ h1
  have hbytes : int_to_bytes2 (temp_offset_raw offset) = .error .overflow := by
    unfold int_to_bytes2
    rw [if_neg (fun hc => (not_le.mpr hraw) hc.1)]
  refine ⟨hraw, ?_, ?_⟩ <;> simp [set_temperature_offset, hbytes]

theorem set_temperature_offset_negative_raises_before_write_witness :
    (set_temperature_offset s0 (-1)).result = .error .overflow ∧
    (set_temperature_offset s0 (-1)).writes = [] := by
  have h := set_temperature_offset_negative_raises_before_write s0 (-1)
    (by norm_num [offsetScale])
  exact ⟨h.2.1, h.2.2⟩

end SCD4x
